import Mathlib

/-!
Shallow embedding of the livox-rs LiDAR SDK wrapper (src/enums.rs,
src/datapacket.rs, src/device.rs, src/callbacks.rs, src/sdk.rs).

Modelling conventions:
* Rust `u8`/`u16`/`u32`/`u64` values are `Nat`; `i32` values are `Int`.
* `f32` arithmetic is idealised as exact rational arithmetic over `ℚ`
  (the decoders only scale integers by constants).
* The process-wide `HashMap`s (`DATA_PIPES`, `DEVICE_STATES`) are
  association lists with key-replacing insertion, matching `HashMap`
  insert/remove/get semantics on duplicate-free key lists.
* `panic!` / `assert!` / unread-byte failures are modelled with `Option`
  or with explicit outcome constructors.
* mpsc channels are modelled as a queue of buffered packets plus a flag
  recording whether the sender side is still alive.
-/

namespace Livox

/-- `LidarState` from src/enums.rs: discriminants 0..5. -/
inductive LidarState where
  | LidarStateInit
  | LidarStateNormal
  | LidarStatePowerSaving
  | LidarStateStandBy
  | LidarStateError
  | LidarStateUnknown
deriving DecidableEq, Repr

/-- The `as u32` cast of a `LidarState`: its C discriminant. -/
def LidarState.val : LidarState → Nat
  | .LidarStateInit => 0
  | .LidarStateNormal => 1
  | .LidarStatePowerSaving => 2
  | .LidarStateStandBy => 3
  | .LidarStateError => 4
  | .LidarStateUnknown => 5

/-- `LidarStateMask` from src/enums.rs. -/
inductive LidarStateMask where
  | Init
  | Normal
  | PowerSaving
  | StandBy
  | Error
  | Unknown
  | Any
deriving DecidableEq, Repr

/-- The discriminant of a `LidarStateMask` (`as u32`):
Init = 1, Normal = 2, PowerSaving = 4, StandBy = 8, Error = 16,
Unknown = 32, Any = 0x1F. -/
def LidarStateMask.val : LidarStateMask → Nat
  | .Init => 1
  | .Normal => 2
  | .PowerSaving => 4
  | .StandBy => 8
  | .Error => 16
  | .Unknown => 32
  | .Any => 0x1F

/-- The mask test from `Device::wait_for_state` (src/device.rs line 87):
`state_mask as u32 & (1 << (state) as u32) != 0`. -/
def maskMatches (m : LidarStateMask) (s : LidarState) : Bool :=
  m.val &&& (1 <<< s.val) != 0

/-- `HashMap::insert` on an association list: replace the value stored at
an existing key, otherwise append the new binding. -/
def mapInsert {β : Type} (reg : List (Nat × β)) (k : Nat) (v : β) :
    List (Nat × β) :=
  match reg with
  | [] => [(k, v)]
  | e :: rest => if e.1 = k then (k, v) :: rest else e :: mapInsert rest k v

/-- `HashMap::get` on an association list. -/
def mapLookup {β : Type} (reg : List (Nat × β)) (k : Nat) : Option β :=
  match reg with
  | [] => none
  | e :: rest => if e.1 = k then some e.2 else mapLookup rest k

/-- `HashMap::remove` on an association list (the map never holds a
duplicate key, so removing the first binding removes the key). -/
def mapRemove {β : Type} (reg : List (Nat × β)) (k : Nat) :
    List (Nat × β) :=
  match reg with
  | [] => []
  | e :: rest => if e.1 = k then rest else e :: mapRemove rest k

/-- `CartesianPoint` from src/datapacket.rs; f32 fields idealised as ℚ. -/
structure CartesianPoint where
  x : ℚ
  y : ℚ
  z : ℚ
  reflectivity : Nat
deriving DecidableEq, Repr

/-- `SphericalPoint` from src/datapacket.rs; f32 fields idealised as ℚ. -/
structure SphericalPoint where
  depth : ℚ
  theta : ℚ
  phi : ℚ
  reflectivity : Nat
deriving DecidableEq, Repr

/-- `DataPoint` from src/datapacket.rs. -/
inductive DataPoint where
  | Cartesian : CartesianPoint → DataPoint
  | Spherical : SphericalPoint → DataPoint
deriving DecidableEq, Repr

/-- `DataPacket` from src/datapacket.rs. -/
structure DataPacket where
  timestamp : Nat
  points : List DataPoint
deriving DecidableEq, Repr

/-- `read_u16::<LittleEndian>` on two consecutive bytes. -/
def readU16LE (b0 b1 : Nat) : Nat := b0 + 256 * b1

/-- `read_u32::<LittleEndian>` on four consecutive bytes. -/
def readU32LE (b0 b1 b2 b3 : Nat) : Nat :=
  b0 + 256 * b1 + 65536 * b2 + 16777216 * b3

/-- `read_i32::<LittleEndian>`: the unsigned value reinterpreted as a
signed two's-complement 32-bit integer. -/
def readI32LE (b0 b1 b2 b3 : Nat) : Int :=
  let u := readU32LE b0 b1 b2 b3
  if u < 2 ^ 31 then (u : Int) else (u : Int) - 2 ^ 32

/-- The literal f32 constant `3.14159265` used by `add_spherical`
(src/datapacket.rs lines 59-60), as an exact rational. -/
def piApprox : ℚ := 314159265 / 100000000

/-- The per-record reading loop of `DataPacket::add_cartesian`
(src/datapacket.rs lines 35-46): read `x`, `y`, `z` as little-endian
`i32` millimeters, divide each by 1000.0, read the reflectivity byte.
The final catch-all is the cursor running out of bytes, which cannot
happen under the `assert!` length guard of `add_cartesian`. -/
def cartesianLoop : Nat → List Nat → List DataPoint
  | 0, _ => []
  | n + 1, b0 :: b1 :: b2 :: b3 :: c0 :: c1 :: c2 :: c3 ::
      d0 :: d1 :: d2 :: d3 :: r :: rest =>
    DataPoint.Cartesian
      { x := (readI32LE b0 b1 b2 b3 : ℚ) / 1000
        y := (readI32LE c0 c1 c2 c3 : ℚ) / 1000
        z := (readI32LE d0 d1 d2 d3 : ℚ) / 1000
        reflectivity := r } :: cartesianLoop n rest
  | _ + 1, _ => []

/-- `DataPacket::add_cartesian` (src/datapacket.rs lines 32-47): the
`assert!(data.len() == npoints * 13)` is modelled as `none` on failure. -/
def add_cartesian (data : List Nat) (npoints : Nat) :
    Option (List DataPoint) :=
  if data.length = npoints * 13 then some (cartesianLoop npoints data)
  else none

/-- The per-record reading loop of `DataPacket::add_spherical`
(src/datapacket.rs lines 52-63): read `depth` as little-endian `u32`,
`theta` and `phi` as little-endian `u16`, scale them by the source's
literal constants, read the reflectivity byte. The final catch-all is
the cursor running out of bytes, which cannot happen under the
`assert!` length guard of `add_spherical`. -/
def sphericalLoop : Nat → List Nat → List DataPoint
  | 0, _ => []
  | n + 1, b0 :: b1 :: b2 :: b3 :: t0 :: t1 :: p0 :: p1 :: r :: rest =>
    DataPoint.Spherical
      { depth := (readU32LE b0 b1 b2 b3 : ℚ) / 1000
        theta := (readU16LE t0 t1 : ℚ) / 100 / 180 * piApprox
        phi := (readU16LE p0 p1 : ℚ) / 100 / 180 * piApprox
        reflectivity := r } :: sphericalLoop n rest
  | _ + 1, _ => []

/-- `DataPacket::add_spherical` (src/datapacket.rs lines 49-64): the
`assert!(data.len() == npoints * 9)` is modelled as `none` on failure. -/
def add_spherical (data : List Nat) (npoints : Nat) :
    Option (List DataPoint) :=
  if data.length = npoints * 9 then some (sphericalLoop npoints data)
  else none

/-- `parse_timestamp` (src/datapacket.rs lines 110-116): accumulate
`val = val * 256 + data[i]` for `i` in `0..8`. Indexing a slice shorter
than 8 bytes would panic, modelled as `none`. -/
def parse_timestamp (data : List Nat) : Option Nat :=
  if data.length < 8 then none
  else some ((List.range 8).foldl (fun val i => val * 256 + data.getD i 0) 0)

/-- The error-code test of the `From` impl (src/datapacket.rs line 76):
`err_code & !(1 << 9) != 0`, with `!` the 32-bit complement, so the
mask is `0xFFFFFDFF = 4294966783`. `true` means the fatal
`panic!("Error code in data packet")` branch is taken. -/
def errFatal (err_code : Nat) : Bool :=
  err_code &&& 4294966783 != 0

/-- The header fields of `livox_sys::LivoxEthPacket` read by the decoder,
with the flexible byte array `data`. -/
structure LivoxEthPacket where
  version : Nat
  timestamp_type : Nat
  timestamp : List Nat
  err_code : Nat
  data_type : Nat
  data : List Nat
deriving DecidableEq, Repr

/-- `From<(*mut LivoxEthPacket, u32)> for DataPacket`
(src/datapacket.rs lines 67-108). Every `panic!` branch (error code,
unknown version, unknown timestamp type, unknown data type) and every
failing inner decode is modelled as `none`. The
`slice::from_raw_parts(&data[0], data_size * k)` view is `List.take`. -/
def DataPacket.fromEth (p : LivoxEthPacket) (data_size : Nat) :
    Option DataPacket :=
  if errFatal p.err_code then none
  else if p.version ≠ 5 then none
  else
    match (if p.timestamp_type = 0 then parse_timestamp p.timestamp
           else none) with
    | none => none
    | some time =>
      if p.data_type = 0 then
        (add_cartesian (p.data.take (data_size * 13)) data_size).map
          (fun pts => { timestamp := time, points := pts })
      else if p.data_type = 1 then
        (add_spherical (p.data.take (data_size * 9)) data_size).map
          (fun pts => { timestamp := time, points := pts })
      else none

/-- The registry `DATA_PIPES` (src/callbacks.rs line 45): device handle ↦
sender. A sender is modelled by an identifying tag for the channel it
belongs to plus that channel's queue of buffered packets. -/
abbrev DataPipes := List (Nat × (Nat × List DataPacket))

/-- The receiving half of an mpsc channel: the buffered packets, and
whether the sender half is still alive (dropping the sender marks the
channel disconnected). -/
structure Channel where
  queue : List DataPacket
  connected : Bool
deriving DecidableEq, Repr

/-- The possible outcomes of one call to the `DataStream` iterator. -/
inductive NextOutcome where
  | item : DataPacket → Channel → NextOutcome
  | empty : NextOutcome
  | panicked : NextOutcome
deriving DecidableEq, Repr

namespace DataStream

/-- `<DataStream as Iterator>::next` (src/device.rs lines 35-47):
`try_recv` yields `Ok(packet)` while packets are buffered, then
`Err(Empty)` if the sender is alive, else `Err(Disconnected)`; the
`Disconnected` arm executes `panic!`. -/
def next (c : Channel) : NextOutcome :=
  match c.queue with
  | p :: rest => .item p { queue := rest, connected := c.connected }
  | [] => if c.connected then .empty else .panicked

/-- `DataStream::new` (src/device.rs lines 14-29): creates a fresh
channel (tag `fresh`, empty queue), unconditionally inserts its sender
into `DATA_PIPES` under `handle`, issues the native `SetDataCallback`
and `LidarStartSampling` commands (no registry effect), and returns
`Ok` — the Boolean result `true` models `Ok`, `false` would model
`Err(())`. -/
def new (reg : DataPipes) (handle fresh : Nat) : DataPipes × Bool :=
  (mapInsert reg handle (fresh, []), true)

/-- `<DataStream as Drop>::drop` (src/device.rs lines 50-58): issues the
native `LidarStopSampling` command (no registry effect) and removes the
handle's entry from `DATA_PIPES`. -/
def drop (reg : DataPipes) (handle : Nat) : DataPipes :=
  mapRemove reg handle

end DataStream

/-- The possible outcomes of one `data_cb` invocation. -/
inductive CbOutcome where
  | delivered : DataPacket → CbOutcome
  | dropped : CbOutcome
  | panicked : CbOutcome
deriving DecidableEq, Repr

/-- `data_cb` (src/callbacks.rs lines 48-58): look up the handle in
`DATA_PIPES`; on a hit decode the packet (`DataPacket::from`, whose
`panic!` branches surface as `.panicked`) and send it down the channel
(append to the queue); on a miss do nothing — "This can happen after
the data stream is closed". Returns the registry afterwards and the
outcome. -/
def data_cb (reg : DataPipes) (handle : Nat) (p : LivoxEthPacket)
    (data_size : Nat) : DataPipes × CbOutcome :=
  match mapLookup reg handle with
  | some (tag, queue) =>
    match DataPacket.fromEth p data_size with
    | some dp => (mapInsert reg handle (tag, queue ++ [dp]), .delivered dp)
    | none => (reg, .panicked)
  | none => (reg, .dropped)

/-- The table `DEVICE_STATES` (src/callbacks.rs line 27). -/
abbrev DeviceStates := List (Nat × LidarState)

namespace Device

/-- `Device::new` (src/device.rs lines 67-75): inserts
`LidarStateUnknown` for the handle into `DEVICE_STATES` and returns
`Ok` (`true`). -/
def new (states : DeviceStates) (handle : Nat) : DeviceStates × Bool :=
  (mapInsert states handle .LidarStateUnknown, true)

/-- One table read of the `wait_for_state` polling loop
(src/device.rs lines 82-85): look the handle up in the table snapshot
seen at iteration `i`, a missing entry defaulting to
`LidarStateUnknown`. `tables i` is the `DEVICE_STATES` content at the
i-th acquisition of the lock. -/
def polledState (tables : Nat → DeviceStates) (handle : Nat) (i : Nat) :
    LidarState :=
  (mapLookup (tables i) handle).getD .LidarStateUnknown

/-- `Device::wait_for_state` (src/device.rs lines 80-91), fuel-indexed:
starting from iteration `i`, run at most `fuel` iterations of the
`loop`; each iteration reads the table and breaks when the mask test
succeeds. `some j` means the loop broke at iteration `j`; `none` means
the fuel ran out without the loop returning. -/
def wait_for_state (tables : Nat → DeviceStates) (handle : Nat)
    (m : LidarStateMask) : Nat → Nat → Option Nat
  | _, 0 => none
  | i, fuel + 1 =>
    if maskMatches m (polledState tables handle i) then some i
    else wait_for_state tables handle m (i + 1) fuel

/-- `Device::start_sampling` (src/device.rs lines 102-105): delegates to
`DataStream::new` and propagates its result. -/
def start_sampling (reg : DataPipes) (handle fresh : Nat) :
    DataPipes × Bool :=
  DataStream.new reg handle fresh

end Device

/-- The state owned by an `Sdk` session that `connect` and
`list_known_devices` touch: the `known_devices` map (broadcast code ↦
flag, src/sdk.rs line 15) and the global `DEVICE_STATES` table. -/
structure SdkState where
  knownDevices : List (String × Bool)
  deviceStates : DeviceStates
deriving DecidableEq, Repr

namespace Sdk

/-- `Sdk::list_known_devices` (src/sdk.rs lines 124-131): copy every key
of the `known_devices` map into a vector. -/
def list_known_devices (st : SdkState) : List String :=
  st.knownDevices.map (fun e => e.1)

/-- `Sdk::connect` (src/sdk.rs lines 101-112): issues the native
`AddLidarToConnect` command for `code`, which yields the device
`handle`, then calls `Device::new handle`. The `known_devices` map is
not touched. Returns the new state and the handle of the returned
`Device`. -/
def connect (st : SdkState) (code : String) (handle : Nat) :
    SdkState × Nat :=
  ({ st with deviceStates := (Device.new st.deviceStates handle).1 },
   handle)

end Sdk

/-- The Cartesian decode mapping worded as in the spec's testable
property: each 13-byte record of the payload, in payload order, yields
one point whose `x`, `y`, `z` are the three signed 32-bit little-endian
millimeter integers each divided by 1000, and whose reflectivity is the
raw trailing byte. A trailing fragment shorter than a record yields
nothing. -/
def cartesianSpecPoints : List Nat → List DataPoint
  | b0 :: b1 :: b2 :: b3 :: c0 :: c1 :: c2 :: c3 ::
      d0 :: d1 :: d2 :: d3 :: r :: rest =>
    DataPoint.Cartesian
      { x := (readI32LE b0 b1 b2 b3 : ℚ) / 1000
        y := (readI32LE c0 c1 c2 c3 : ℚ) / 1000
        z := (readI32LE d0 d1 d2 d3 : ℚ) / 1000
        reflectivity := r } :: cartesianSpecPoints rest
  | _ => []

/-- The Spherical decode mapping worded as in the spec's testable
property, with pi taken as the source's literal constant `piApprox`:
each 9-byte record, in payload order, yields one point with
`depth = raw_depth / 1000`, `theta = raw_theta / 100 * (pi / 180)`,
`phi = raw_phi / 100 * (pi / 180)`, and the raw reflectivity byte. -/
def sphericalSpecPoints : List Nat → List DataPoint
  | b0 :: b1 :: b2 :: b3 :: t0 :: t1 :: p0 :: p1 :: r :: rest =>
    DataPoint.Spherical
      { depth := (readU32LE b0 b1 b2 b3 : ℚ) / 1000
        theta := (readU16LE t0 t1 : ℚ) / 100 * (piApprox / 180)
        phi := (readU16LE p0 p1 : ℚ) / 100 * (piApprox / 180)
        reflectivity := r } :: sphericalSpecPoints rest
  | _ => []

/-! ## Helper lemmas on the association-list maps -/

theorem mapLookup_mapInsert {β : Type} (reg : List (Nat × β)) (k : Nat)
    (v : β) : mapLookup (mapInsert reg k v) k = some v := by
  induction reg with
  | nil => simp [mapInsert, mapLookup]
  | cons e rest ih =>
    by_cases h : e.1 = k
    · simp [mapInsert, mapLookup, h]
    · simp [mapInsert, mapLookup, h, ih]

theorem mapLookup_eq_none_of_not_mem {β : Type} (reg : List (Nat × β))
    (k : Nat) (h : k ∉ reg.map (fun e => e.1)) : mapLookup reg k = none := by
  induction reg with
  | nil => rfl
  | cons e rest ih =>
    simp only [List.map_cons, List.mem_cons, not_or] at h
    simp only [mapLookup]
    rw [if_neg (fun hh => h.1 hh.symm)]
    exact ih h.2

theorem mapLookup_mapRemove_self {β : Type} (reg : List (Nat × β))
    (k : Nat) (hnd : (reg.map (fun e => e.1)).Nodup) :
    mapLookup (mapRemove reg k) k = none := by
  induction reg with
  | nil => rfl
  | cons e rest ih =>
    simp only [List.map_cons, List.nodup_cons] at hnd
    by_cases h : e.1 = k
    · simp only [mapRemove, if_pos h]
      exact mapLookup_eq_none_of_not_mem rest k (h ▸ hnd.1)
    · simp only [mapRemove, if_neg h, mapLookup]
      exact ih hnd.2

/-! ## Decode-loop refinement lemmas -/

theorem sphericalLoop_eq_spec :
    ∀ (n : Nat) (data : List Nat), data.length = 9 * n →
      sphericalLoop n data = sphericalSpecPoints data ∧
      (sphericalSpecPoints data).length = n := by
  intro n
  induction n with
  | zero =>
    intro data h
    have hd : data = [] := List.length_eq_zero.mp (by omega)
    subst hd
    exact ⟨rfl, rfl⟩
  | succ n ih =>
    intro data h
    rcases data with _ | ⟨b0, _ | ⟨b1, _ | ⟨b2, _ | ⟨b3, _ | ⟨t0, _ | ⟨t1,
      _ | ⟨p0, _ | ⟨p1, _ | ⟨r, rest⟩⟩⟩⟩⟩⟩⟩⟩⟩ <;>
      simp only [List.length_cons, List.length_nil] at h <;> try omega
    obtain ⟨ih1, ih2⟩ := ih rest (by omega)
    have hform : ∀ u : ℚ, u / 100 / 180 * piApprox = u / 100 * (piApprox / 180) := by
      intro u; ring
    refine ⟨?_, ?_⟩
    · simp only [sphericalLoop, sphericalSpecPoints, ih1, hform]
    · simp only [sphericalSpecPoints, List.length_cons, ih2]

theorem cartesianLoop_eq_spec :
    ∀ (n : Nat) (data : List Nat), data.length = 13 * n →
      cartesianLoop n data = cartesianSpecPoints data ∧
      (cartesianSpecPoints data).length = n := by
  intro n
  induction n with
  | zero =>
    intro data h
    have hd : data = [] := List.length_eq_zero.mp (by omega)
    subst hd
    exact ⟨rfl, rfl⟩
  | succ n ih =>
    intro data h
    rcases data with _ | ⟨b0, _ | ⟨b1, _ | ⟨b2, _ | ⟨b3, _ | ⟨c0, _ | ⟨c1,
      _ | ⟨c2, _ | ⟨c3, _ | ⟨d0, _ | ⟨d1, _ | ⟨d2, _ | ⟨d3,
      _ | ⟨r, rest⟩⟩⟩⟩⟩⟩⟩⟩⟩⟩⟩⟩⟩ <;>
      simp only [List.length_cons, List.length_nil] at h <;> try omega
    obtain ⟨ih1, ih2⟩ := ih rest (by omega)
    refine ⟨?_, ?_⟩
    · simp only [cartesianLoop, cartesianSpecPoints, ih1]
    · simp only [cartesianSpecPoints, List.length_cons, ih2]

/-! ## Claim theorems -/

/-- C1 (counterexample): the claim that the `Any` mask matches every
`LidarState` fails at `LidarStateUnknown`: `Any` is `0x1F`, whose bit 5
is clear, so the `wait_for_state` mask test rejects the stored state
`LidarStateUnknown`. -/
theorem c1_any_mask_counterexample :
    maskMatches LidarStateMask.Any LidarState.LidarStateUnknown = false ∧
    LidarStateMask.Any.val &&& (1 <<< LidarState.LidarStateUnknown.val) = 0 := by
  exact ⟨rfl, rfl⟩

/-- C1 (amended): the `Any` mask (`0x1F`) matches exactly the states
other than `LidarStateUnknown`; `wait_for_state` called with the `Any`
mask accepts a stored state if and only if it is not
`LidarStateUnknown`. -/
theorem c1_any_mask_matches_all_but_unknown :
    ∀ s : LidarState,
      maskMatches LidarStateMask.Any s = true ↔
        s ≠ LidarState.LidarStateUnknown := by
  intro s
  cases s <;> decide

/-- C1 witness: the amended theorem evaluated at `LidarStateInit`
(accepted by `Any`) and at `LidarStateUnknown` (rejected by `Any`). -/
theorem c1_any_mask_matches_all_but_unknown_witness :
    (maskMatches LidarStateMask.Any LidarState.LidarStateInit = true ↔
      LidarState.LidarStateInit ≠ LidarState.LidarStateUnknown) ∧
    (maskMatches LidarStateMask.Any LidarState.LidarStateUnknown = true ↔
      LidarState.LidarStateUnknown ≠ LidarState.LidarStateUnknown) :=
  ⟨c1_any_mask_matches_all_but_unknown LidarState.LidarStateInit,
   c1_any_mask_matches_all_but_unknown LidarState.LidarStateUnknown⟩

/-- C2 (counterexample): with a live registry entry `(1, (7, []))` for
handle 1, `Device::start_sampling` (via `DataStream::new` with fresh
sender 8) returns `Ok` and replaces the entry instead of rejecting and
leaving it unchanged. -/
theorem c2_start_sampling_counterexample :
    mapLookup ([(1, (7, []))] : DataPipes) 1 = some (7, []) ∧
    Device.start_sampling [(1, (7, []))] 1 8 = ([(1, (8, []))], true) ∧
    mapLookup (Device.start_sampling [(1, (7, []))] 1 8).1 1 = some (8, []) := by
  exact ⟨rfl, rfl, rfl⟩

/-- C2 (amended): when the data-channel registry already holds a live
entry for the identity, `Device::start_sampling` (via
`DataStream::new`) succeeds anyway and overwrites that entry with the
fresh channel's sender — last registration wins. -/
theorem c2_start_sampling_overwrites (reg : DataPipes)
    (handle fresh : Nat) (old : Nat × List DataPacket)
    (hlive : mapLookup reg handle = some old) :
    Device.start_sampling reg handle fresh =
      (mapInsert reg handle (fresh, []), true) ∧
    mapLookup (Device.start_sampling reg handle fresh).1 handle =
      some (fresh, []) := by
  exact ⟨rfl, mapLookup_mapInsert reg handle (fresh, [])⟩

/-- C2 witness: the amended theorem applied to the registry
`[(1, (7, []))]`, which holds a live entry for handle 1. -/
theorem c2_start_sampling_overwrites_witness :
    Device.start_sampling [(1, (7, []))] 1 8 =
      (mapInsert [(1, (7, []))] 1 (8, []), true) ∧
    mapLookup (Device.start_sampling [(1, (7, []))] 1 8).1 1 =
      some (8, []) :=
  c2_start_sampling_overwrites [(1, (7, []))] 1 8 (7, []) rfl

/-- C3 (counterexample): after the broadcast code "AAAA" (already in the
known-devices map) is passed to `Sdk::connect`, `list_known_devices`
still returns a list containing "AAAA". -/
theorem c3_connect_counterexample :
    "AAAA" ∈ Sdk.list_known_devices
      (Sdk.connect { knownDevices := [("AAAA", false)], deviceStates := [] }
        "AAAA" 1).1 := by
  simp [Sdk.connect, Sdk.list_known_devices]

/-- C3 (amended): `Sdk::connect` leaves the known-devices map unchanged,
so `list_known_devices` after a connect returns the same list as
before; in particular a broadcast code listed before being connected is
still listed afterwards. -/
theorem c3_connect_preserves_known_devices (st : SdkState) (code : String)
    (handle : Nat) :
    (Sdk.connect st code handle).1.knownDevices = st.knownDevices ∧
    Sdk.list_known_devices (Sdk.connect st code handle).1 =
      Sdk.list_known_devices st ∧
    (code ∈ Sdk.list_known_devices st →
      code ∈ Sdk.list_known_devices (Sdk.connect st code handle).1) := by
  exact ⟨rfl, rfl, fun h => h⟩

/-- C3 witness: the amended theorem applied to a session state whose
known-devices map holds the code "AAAA". -/
theorem c3_connect_preserves_known_devices_witness :
    (Sdk.connect { knownDevices := [("AAAA", false)], deviceStates := [] }
        "AAAA" 1).1.knownDevices = [("AAAA", false)] ∧
    "AAAA" ∈ Sdk.list_known_devices
      (Sdk.connect { knownDevices := [("AAAA", false)], deviceStates := [] }
        "AAAA" 1).1 :=
  ⟨(c3_connect_preserves_known_devices
      { knownDevices := [("AAAA", false)], deviceStates := [] } "AAAA" 1).1,
   (c3_connect_preserves_known_devices
      { knownDevices := [("AAAA", false)], deviceStates := [] } "AAAA" 1).2.2
     (by simp [Sdk.list_known_devices])⟩

/-- C4 (counterexample): the claim's conversion `theta =
raw_theta / 100.0 * pi / 180` fails for the exact constant the source
uses: decoding the valid 9-byte Spherical payload with `raw_theta = 1`
yields `theta = 1 / 100 / 180 * 3.14159265`, which differs from
`1 / 100 * (pi / 180)` because pi is irrational while the source's
constant is rational. -/
theorem c4_add_spherical_pi_counterexample :
    add_spherical [0, 0, 0, 0, 1, 0, 0, 0, 0] 1 =
      some [DataPoint.Spherical
        { depth := 0, theta := (1 : ℚ) / 100 / 180 * piApprox,
          phi := 0, reflectivity := 0 }] ∧
    (((1 : ℚ) / 100 / 180 * piApprox : ℚ) : ℝ) ≠
      (1 / 100) * (Real.pi / 180) := by
  refine ⟨by norm_num [add_spherical, sphericalLoop, readU32LE, readU16LE,
    piApprox], ?_⟩
  intro hEq
  have h1 : ((1 : ℚ) / 100 / 180 * piApprox : ℚ) = piApprox / 18000 := by
    ring
  rw [h1] at hEq
  push_cast at hEq
  have hπ : Real.pi = ((piApprox : ℚ) : ℝ) := by
    have h2 : (1 : ℝ) / 100 * (Real.pi / 180) = Real.pi / 18000 := by ring
    rw [h2] at hEq
    linarith
  exact irrational_pi.ne_rat piApprox hπ

/-- C4 (amended): for every payload of length `9 * n`, `add_spherical`
decodes exactly `n` points, in payload order, with `depth` the
little-endian `u32` divided by 1000, and `theta` and `phi` each the
little-endian `u16` divided by 100 and multiplied by `c / 180`, where
`c = 3.14159265` is the source's rational approximation of pi
(f32 arithmetic idealised as exact rational arithmetic); reflectivity
is the raw byte. -/
theorem c4_add_spherical_spec (n : Nat) (data : List Nat)
    (h : data.length = 9 * n) :
    add_spherical data n = some (sphericalSpecPoints data) ∧
    (sphericalSpecPoints data).length = n := by
  obtain ⟨h1, h2⟩ := sphericalLoop_eq_spec n data h
  refine ⟨?_, h2⟩
  unfold add_spherical
  rw [if_pos (by omega), h1]

/-- C4 witness: the amended theorem applied to the concrete valid
payload `[0,0,0,0,1,0,0,0,0]` with `n = 1`. -/
theorem c4_add_spherical_spec_witness :
    add_spherical [0, 0, 0, 0, 1, 0, 0, 0, 0] 1 =
      some (sphericalSpecPoints [0, 0, 0, 0, 1, 0, 0, 0, 0]) ∧
    (sphericalSpecPoints [0, 0, 0, 0, 1, 0, 0, 0, 0]).length = 1 :=
  c4_add_spherical_spec 1 [0, 0, 0, 0, 1, 0, 0, 0, 0] (by decide)

/-- C5 (counterexample): polling a `DataStream` whose channel is empty
and whose sender half has been dropped takes the
`Err(TryRecvError::Disconnected)` arm and panics — a third outcome
beyond "next packet" and "nothing yet". -/
theorem c5_next_counterexample :
    DataStream.next { queue := [], connected := false } =
      NextOutcome.panicked ∧
    NextOutcome.panicked ≠ NextOutcome.empty := by
  exact ⟨rfl, by decide⟩

/-- C5 (amended): `<DataStream as Iterator>::next` never blocks and has
exactly three outcomes, fixed by the channel state: the next buffered
packet when one is queued, "nothing yet" when the channel is empty with
the sender alive, and a panic when the channel is empty and the sender
has been dropped (disconnected). -/
theorem c5_next_spec (c : Channel) :
    (∀ (p : DataPacket) (rest : List DataPacket), c.queue = p :: rest →
      DataStream.next c =
        NextOutcome.item p { queue := rest, connected := c.connected }) ∧
    (c.queue = [] → c.connected = true →
      DataStream.next c = NextOutcome.empty) ∧
    (c.queue = [] → c.connected = false →
      DataStream.next c = NextOutcome.panicked) := by
  refine ⟨?_, ?_, ?_⟩
  · intro p rest hq
    simp [DataStream.next, hq]
  · intro hq hc
    simp [DataStream.next, hq, hc]
  · intro hq hc
    simp [DataStream.next, hq, hc]

/-- C5 witness: the amended theorem applied to three concrete channel
states, one per outcome. -/
theorem c5_next_spec_witness :
    DataStream.next (Channel.mk [DataPacket.mk 0 []] true) =
      NextOutcome.item (DataPacket.mk 0 []) (Channel.mk [] true) ∧
    DataStream.next (Channel.mk [] true) = NextOutcome.empty ∧
    DataStream.next (Channel.mk [] false) = NextOutcome.panicked :=
  ⟨(c5_next_spec (Channel.mk [DataPacket.mk 0 []] true)).1
      (DataPacket.mk 0 []) [] rfl,
   (c5_next_spec (Channel.mk [] true)).2.1 rfl rfl,
   (c5_next_spec (Channel.mk [] false)).2.2 rfl rfl⟩

/-- C6: `wait_for_state` breaks out of its polling loop at the very
first iteration (no further polling) whenever the state currently
stored for the handle — a missing entry defaulting to
`LidarStateUnknown` — has its bit set in the mask, for any amount of
fuel; and if the stored state's bit is clear at every iteration, the
loop never returns, i.e. exhausts any finite fuel without producing a
result. -/
theorem c6_wait_for_state_spec (tables : Nat → DeviceStates)
    (handle : Nat) (m : LidarStateMask) :
    (maskMatches m (Device.polledState tables handle 0) = true →
      ∀ fuel, Device.wait_for_state tables handle m 0 (fuel + 1) = some 0) ∧
    ((∀ i, maskMatches m (Device.polledState tables handle i) = false) →
      ∀ i fuel, Device.wait_for_state tables handle m i fuel = none) := by
  constructor
  · intro h fuel
    simp [Device.wait_for_state, h]
  · intro h i fuel
    induction fuel generalizing i with
    | zero => rfl
    | succ fuel ih =>
      simp only [Device.wait_for_state, h i, Bool.false_eq_true, if_false]
      exact ih (i + 1)

/-- Reading any snapshot of a constantly empty table yields the default
`LidarStateUnknown`. -/
theorem polledState_of_empty (handle i : Nat) :
    Device.polledState (fun _ => []) handle i =
      LidarState.LidarStateUnknown := rfl

/-- C6 witness: with the table constantly mapping handle 1 to
`LidarStateNormal`, waiting for `Normal` returns at iteration 0; with a
constantly empty table (stored state defaulting to
`LidarStateUnknown`), waiting for `Normal` returns within no finite
fuel. -/
theorem c6_wait_for_state_spec_witness :
    Device.wait_for_state (fun _ => [(1, LidarState.LidarStateNormal)]) 1
      LidarStateMask.Normal 0 1 = some 0 ∧
    Device.wait_for_state (fun _ => []) 1 LidarStateMask.Normal 0 5 =
      none :=
  ⟨(c6_wait_for_state_spec (fun _ => [(1, LidarState.LidarStateNormal)]) 1
      LidarStateMask.Normal).1 (by decide) 0,
   (c6_wait_for_state_spec (fun _ => []) 1 LidarStateMask.Normal).2
     (fun i => by rw [polledState_of_empty]; decide) 0 5⟩

/-- C7: for every payload of length `13 * n`, `add_cartesian` decodes
exactly `n` points, the i-th output point coming from the i-th 13-byte
record (payload order preserved, as the record-by-record recursion of
`cartesianSpecPoints` states), with `x`, `y`, `z` the three signed
32-bit little-endian millimeter integers each divided by 1000 (f32
arithmetic idealised as exact rational arithmetic) and reflectivity the
raw trailing byte. -/
theorem c7_add_cartesian_spec (n : Nat) (data : List Nat)
    (h : data.length = 13 * n) :
    add_cartesian data n = some (cartesianSpecPoints data) ∧
    (cartesianSpecPoints data).length = n := by
  obtain ⟨h1, h2⟩ := cartesianLoop_eq_spec n data h
  refine ⟨?_, h2⟩
  unfold add_cartesian
  rw [if_pos (by omega), h1]

/-- C7 witness: the theorem applied to a concrete valid 13-byte payload
(one point: x = 1000 mm, y = 0 mm, z = -1 mm, reflectivity 7), and the
decoded result evaluated. -/
theorem c7_add_cartesian_spec_witness :
    (add_cartesian
        [232, 3, 0, 0, 0, 0, 0, 0, 255, 255, 255, 255, 7] 1 =
      some (cartesianSpecPoints
        [232, 3, 0, 0, 0, 0, 0, 0, 255, 255, 255, 255, 7]) ∧
    (cartesianSpecPoints
        [232, 3, 0, 0, 0, 0, 0, 0, 255, 255, 255, 255, 7]).length = 1) ∧
    cartesianSpecPoints [232, 3, 0, 0, 0, 0, 0, 0, 255, 255, 255, 255, 7] =
      [DataPoint.Cartesian
        { x := 1, y := 0, z := -1 / 1000, reflectivity := 7 }] :=
  ⟨c7_add_cartesian_spec 1
      [232, 3, 0, 0, 0, 0, 0, 0, 255, 255, 255, 255, 7] (by decide),
   by norm_num [cartesianSpecPoints, readI32LE, readU32LE]⟩

/-- C8: `parse_timestamp` decodes its 8-byte input as a big-endian
unsigned integer, accumulating `val = val * 256 + byte` from the
most-significant byte first; in particular `[0,0,0,0,0,0,0,1]` decodes
to 1 and `[1,0,0,0,0,0,0,0]` decodes to `2 ^ 56`. -/
theorem c8_parse_timestamp_spec :
    (∀ b0 b1 b2 b3 b4 b5 b6 b7 : Nat,
      parse_timestamp [b0, b1, b2, b3, b4, b5, b6, b7] =
        some ((((((((0 * 256 + b0) * 256 + b1) * 256 + b2) * 256 + b3) *
          256 + b4) * 256 + b5) * 256 + b6) * 256 + b7)) ∧
    parse_timestamp [0, 0, 0, 0, 0, 0, 0, 1] = some 1 ∧
    parse_timestamp [1, 0, 0, 0, 0, 0, 0, 0] = some (2 ^ 56) := by
  refine ⟨fun b0 b1 b2 b3 b4 b5 b6 b7 => rfl, by decide, by decide⟩

/-- Every bit of `512 = 2 ^ 9` other than bit 9 is clear. -/
theorem testBit_512_eq_false (i : Nat) (hi : i ≠ 9) :
    Nat.testBit 512 i = false := by
  rcases Nat.lt_or_ge i 10 with h | h
  · interval_cases i
    all_goals first
      | exact absurd rfl hi
      | decide
  · exact Nat.testBit_eq_false_of_lt
      (lt_of_lt_of_le (by norm_num) (Nat.pow_le_pow_right (by norm_num) h))

/-- C9: the decoder's error-code check masks out bit 9 (the PPS-sync
flag, mask `!(1 << 9) = 0xFFFFFDFF`) before testing for "no error":
a 32-bit error code whose bits other than bit 9 are all clear is not
fatal, an error code with any bit other than bit 9 set is fatal, and a
fatal error code makes `DataPacket::from` take its `panic!` branch
(decoding fails). -/
theorem c9_err_code_mask (e : Nat) (he : e < 2 ^ 32) :
    ((∀ i, i ≠ 9 → e.testBit i = false) → errFatal e = false) ∧
    ((∃ i, i ≠ 9 ∧ e.testBit i = true) → errFatal e = true) ∧
    (errFatal e = true → ∀ (p : LivoxEthPacket) (ds : Nat),
      p.err_code = e → DataPacket.fromEth p ds = none) := by
  refine ⟨?_, ?_, ?_⟩
  · intro h
    have hz : e &&& 4294966783 = 0 := by
      apply Nat.eq_of_testBit_eq
      intro i
      rw [Nat.testBit_land, Nat.zero_testBit]
      by_cases hi : i = 9
      · subst hi
        rw [show Nat.testBit 4294966783 9 = false from by decide]
        exact Bool.and_false _
      · rw [h i hi]
        exact Bool.false_and _
    simp [errFatal, hz]
  · rintro ⟨i, hi9, hbit⟩
    have hi32 : i < 32 := by
      by_contra hge
      push_neg at hge
      have hb : e.testBit i = false :=
        Nat.testBit_eq_false_of_lt
          (lt_of_lt_of_le he (Nat.pow_le_pow_right (by norm_num) hge))
      rw [hb] at hbit
      exact Bool.false_ne_true hbit
    have hm : Nat.testBit 4294966783 i = true := by
      have hall : ∀ j, j < 32 → j ≠ 9 → Nat.testBit 4294966783 j = true :=
        by decide
      exact hall i hi32 hi9
    have hne : e &&& 4294966783 ≠ 0 := by
      intro h0
      have hb := congrArg (fun x => Nat.testBit x i) h0
      simp [Nat.testBit_land, hbit, hm, Nat.zero_testBit] at hb
    simpa [errFatal, bne_iff_ne] using hne
  · intro hf p ds hpe
    simp [DataPacket.fromEth, hpe, hf]

/-- C9 witness: the theorem applied to the codes 512 (only bit 9 set —
not fatal) and 1 (bit 0 set — fatal), and to a concrete packet carrying
error code 1, whose decode fails. -/
theorem c9_err_code_mask_witness :
    errFatal 512 = false ∧ errFatal 1 = true ∧
    DataPacket.fromEth
        (LivoxEthPacket.mk 5 0 [0, 0, 0, 0, 0, 0, 0, 0] 1 0 []) 0 =
      none :=
  ⟨(c9_err_code_mask 512 (by norm_num)).1
      (fun i hi => testBit_512_eq_false i hi),
   (c9_err_code_mask 1 (by norm_num)).2.1 ⟨0, by decide, by decide⟩,
   (c9_err_code_mask 1 (by norm_num)).2.2
     ((c9_err_code_mask 1 (by norm_num)).2.1 ⟨0, by decide, by decide⟩)
     (LivoxEthPacket.mk 5 0 [0, 0, 0, 0, 0, 0, 0, 0] 1 0 []) 0 rfl⟩

/-- C10: when the data-channel registry holds no entry for an identity —
as after the identity's `DataStream` has been dropped — `data_cb` for
that identity is a silent no-op: it does not decode, does not panic,
delivers nothing, and returns the registry unchanged; and dropping a
stream (`mapRemove` on a duplicate-free registry) does leave no entry
for its identity. -/
theorem c10_data_cb_noop (reg : DataPipes) (handle : Nat) :
    (mapLookup reg handle = none →
      ∀ (p : LivoxEthPacket) (ds : Nat),
        data_cb reg handle p ds = (reg, CbOutcome.dropped)) ∧
    ((reg.map (fun e => e.1)).Nodup →
      mapLookup (DataStream.drop reg handle) handle = none) := by
  constructor
  · intro h p ds
    simp [data_cb, h]
  · intro hnd
    exact mapLookup_mapRemove_self reg handle hnd

/-- C10 witness: the theorem applied to a registry holding only an entry
for handle 2 while handle 1 receives a callback, and to dropping the
stream of handle 1 from a registry holding exactly that entry. -/
theorem c10_data_cb_noop_witness :
    data_cb [(2, (7, []))] 1
        (LivoxEthPacket.mk 5 0 [0, 0, 0, 0, 0, 0, 0, 0] 0 0 []) 0 =
      ([(2, (7, []))], CbOutcome.dropped) ∧
    mapLookup (DataStream.drop [(1, (7, []))] 1) 1 = none :=
  ⟨(c10_data_cb_noop [(2, (7, []))] 1).1 rfl
      (LivoxEthPacket.mk 5 0 [0, 0, 0, 0, 0, 0, 0, 0] 0 0 []) 0,
   (c10_data_cb_noop [(1, (7, []))] 1).2 (by simp)⟩

end Livox
